import Mathlib

/-!
Shallow embedding of `src/unifi.py` (KevinNaMo/unifi-tracker), a single-file
stock-checking script.  The script drives a headless browser to three product
pages, scans the DOM for a "Sold Out" marker, and sends one Pushover
notification per target.

The embedding models the browser as an oracle (`Page`) giving the outcome of
each webdriver call the script makes: `driver.get`, the `WebDriverWait` for
the `body` tag, `find_elements` per CSS selector, and `save_screenshot`.
Side effects (screenshot calls, selectors queried, element texts examined,
notifications sent, `driver.quit`) are returned as explicit traces so that
properties about them can be stated.
-/

namespace Unifi

/-- Python substring test `needle in haystack` (the `in` operator on `str`),
character-exact and case-sensitive, on exploded character lists. -/
def hasInfixAux (needle : List Char) : List Char → Bool
  | [] => needle.isEmpty
  | c :: t => needle.isPrefixOf (c :: t) || hasInfixAux needle t

/-- Python `needle in haystack` on strings. -/
def strIn (needle haystack : String) : Bool :=
  hasInfixAux needle.toList haystack.toList

/-- Embedding of `os.path.join(base, fname)` for a relative file name `fname`. -/
def pathJoin (base fname : String) : String := base ++ "/" ++ fname

/-- A DOM element as the script sees it: only its visible `.text` is read. -/
structure Element where
  text : String
deriving Repr, DecidableEq

/-- Outcome of `driver.get(url)`: normal return, a raised
`TimeoutException`, or any other raised exception with its message. -/
inductive NavResult where
  | ok
  | timeout
  | raise (msg : String)
deriving Repr, DecidableEq

/-- Outcome of `WebDriverWait(driver, t).until(presence_of_element_located(body))`. -/
inductive WaitResult where
  | ok
  | timeout
  | raise (msg : String)
deriving Repr, DecidableEq

/-- Outcome of `driver.find_elements(By.CSS_SELECTOR, sel)`: an element list,
a raised `NoSuchElementException`, or any other raised exception. -/
inductive FindResult where
  | found (es : List Element)
  | noSuchElement
  | raise (msg : String)
deriving Repr, DecidableEq

/-- Outcome of `driver.save_screenshot(path)`.  Per selenium's
`get_screenshot_as_file`, an `OSError` while writing the file is swallowed
and the call returns `False` (`writeFailed`); only a webdriver failure while
capturing the image raises (`raise`). -/
inductive ScreenshotResult where
  | ok
  | writeFailed
  | raise (msg : String)
deriving Repr, DecidableEq

/-- Predicate `ScreenshotResult.raises`: whether the `save_screenshot` call raises. -/
def ScreenshotResult.raises : ScreenshotResult → Bool
  | .raise _ => true
  | _ => false

/-- The behaviour of one rendered page under the webdriver calls the script
makes.  `waitBody` takes the timeout (the script passes 20 seconds). -/
structure Page where
  nav : NavResult
  waitBody : Nat → WaitResult
  find : String → FindResult
  screenshot : ScreenshotResult

/-- The `sold_out_selectors` list of `check_product_availability`. -/
def sold_out_selectors : List String :=
  [".sc-190ba8g-4",
   "button[label=\"Sold Out\"]",
   "div.sc-1x3sjmh-0"]

/-- The inner `for element in elements` loop: tests each element's text for
`'Sold Out'`, breaking on the first hit.  Returns the flag together with the
texts examined, in order (the loop's `break` means nothing after the first
hit is looked at). -/
def scanElems : List Element → Bool × List String
  | [] => (false, [])
  | e :: rest =>
    if strIn "Sold Out" e.text then (true, [e.text])
    else
      let (b, ts) := scanElems rest
      (b, e.text :: ts)

/-- Accumulated observations of the selector loop together with its result:
`res` is `.ok found_flag` or `.error msg` when a `find_elements` call raised
something other than `NoSuchElementException` (which propagates to the outer
handler); `queried` lists the selectors passed to `find_elements`, in order;
`examined` lists the element texts tested against `'Sold Out'`, in order. -/
structure ScanState where
  res : Except String Bool
  queried : List String
  examined : List String
deriving Repr

/-- The outer `for selector in sold_out_selectors` loop: `find_elements` per
selector, `NoSuchElementException` means `continue`, any other exception
propagates, and the loop breaks as soon as `sold_out_found` is set. -/
def scanSelectors (page : Page) : List String → ScanState
  | [] => ⟨.ok false, [], []⟩
  | sel :: rest =>
    match page.find sel with
    | .raise m => ⟨.error m, [sel], []⟩
    | .noSuchElement =>
      let s := scanSelectors page rest
      ⟨s.res, sel :: s.queried, s.examined⟩
    | .found es =>
      let (b, ts) := scanElems es
      if b then ⟨.ok true, [sel], ts⟩
      else
        let s := scanSelectors page rest
        ⟨s.res, sel :: s.queried, ts ++ s.examined⟩

/-- The value and observable side effects of one `check_product_availability`
call: the returned pair `(available, error)` plus the paths passed to
`save_screenshot` and the selector/element observations. -/
structure CheckOutcome where
  available : Bool
  error : Option String
  screenshot_calls : List String
  queried : List String
  examined : List String
deriving Repr, DecidableEq

/-- Message of the `except TimeoutException` handler. -/
def timeoutMsg (product_name : String) : String :=
  "Timeout while loading the page for " ++ product_name

/-- Message of the generic `except Exception as e` handler. -/
def errMsg (product_name m : String) : String :=
  "Error checking " ++ product_name ++ " availability: " ++ m

/-- Embedding of `check_product_availability(driver, url, product_name)` of
`src/unifi.py`: navigate, wait (20 s) for `body`, scan the three selectors
for `'Sold Out'`; on no marker, `save_screenshot` and return
`(True, None)`; on marker, `(False, None)`; `TimeoutException` and any
other exception are caught and returned as `(False, message)`. -/
def check_product_availability (baseDir : String) (page : Page)
    (product_name : String) : CheckOutcome :=
  match page.nav with
  | .timeout => ⟨false, some (timeoutMsg product_name), [], [], []⟩
  | .raise m => ⟨false, some (errMsg product_name m), [], [], []⟩
  | .ok =>
    match page.waitBody 20 with
    | .timeout => ⟨false, some (timeoutMsg product_name), [], [], []⟩
    | .raise m => ⟨false, some (errMsg product_name m), [], [], []⟩
    | .ok =>
      let s := scanSelectors page sold_out_selectors
      match s.res with
      | .error m => ⟨false, some (errMsg product_name m), [], s.queried, s.examined⟩
      | .ok true => ⟨false, none, [], s.queried, s.examined⟩
      | .ok false =>
        let path :=
          pathJoin baseDir (product_name.replace " " "_" ++ "_screenshot.png")
        match page.screenshot with
        | .raise m => ⟨false, some (errMsg product_name m), [path], s.queried, s.examined⟩
        | .writeFailed => ⟨true, none, [path], s.queried, s.examined⟩
        | .ok => ⟨true, none, [path], s.queried, s.examined⟩

/-- The arguments of one `send_notification(message, priority, title)` call. -/
structure Notification where
  message : String
  priority : Int
  title : String
deriving Repr, DecidableEq

/-- The stock-status notification built in `main`'s `else` branches.  The
status strings reproduce the source bytes exactly: the file holds the
mojibake characters `ðŸŽ‰` and `ðŸ˜¢`
after "IN STOCK! " and "still sold out ". -/
def stockStatusNotif (name now : String) (available : Bool) : Notification :=
  ⟨name ++ " is "
     ++ (if available then "IN STOCK! ðŸŽ‰"
         else "still sold out ðŸ˜¢")
     ++ " as of " ++ now,
   if available then 1 else -2,
   "Unifi Stock Check"⟩

/-- One target's notification block in `main`: Python's `if switch_error:`
is a truthiness test, so both `None` and the empty string select the
stock-status branch; a non-empty error message selects the error-titled
notification with priority `-1`. -/
def notifyFor (name now : String) (available : Bool) (error : Option String) :
    Notification :=
  match error with
  | some e =>
    if e = "" then stockStatusNotif name now available
    else ⟨"Error checking " ++ name ++ ": " ++ e, -1, "Error - Unifi Stock Check"⟩
  | none => stockStatusNotif name now available

/-- Observable events of one run of `main`: a product check performed, a
`send_notification` call made, `driver.quit()` executed. -/
inductive Ev where
  | checked (product_name : String)
  | notified (n : Notification)
  | quit
deriving Repr, DecidableEq

/-- The environment of one run of `main`.  `launchFail` is a raised
exception anywhere before the inner `try` (random delay, `mkdtemp`, Chrome
service, `webdriver.Chrome`); when it is `some`, no driver exists.
`fault k` injects an unexpected exception (at the `Exception` level) in
place of step `k` of the inner block — steps 0..2 are the three
`check_product_availability` calls and steps 3..5 the three notification
blocks — to model the spec's "partially failed, or raised" paths; in the
source these steps catch their own exceptions, so a fault-free run is the
reference behaviour. -/
structure Env where
  launchFail : Option String
  page : String → Page
  fault : Nat → Option String
  urlSwitch : String
  urlWifi : String
  urlGateway : String
  baseDir : String
  now : String

/-- The body of `main`'s inner `try` block: three sequential checks, then
one notification per target.  Returns the events performed and the
exception, if any, escaping the block. -/
def runInner (env : Env) : List Ev × Option String :=
  match env.fault 0 with
  | some m => ([], some m)
  | none =>
    let r1 := check_product_availability env.baseDir (env.page env.urlSwitch)
      "Pro Max 16 PoE Switch"
    let ev1 : List Ev := [.checked "Pro Max 16 PoE Switch"]
    match env.fault 1 with
    | some m => (ev1, some m)
    | none =>
      let r2 := check_product_availability env.baseDir (env.page env.urlWifi)
        "U7 Pro Max WiFi AP"
      let ev2 := ev1 ++ [.checked "U7 Pro Max WiFi AP"]
      match env.fault 2 with
      | some m => (ev2, some m)
      | none =>
        let r3 := check_product_availability env.baseDir (env.page env.urlGateway)
          "Cloud Gateway Fiber"
        let ev3 := ev2 ++ [.checked "Cloud Gateway Fiber"]
        match env.fault 3 with
        | some m => (ev3, some m)
        | none =>
          let ev4 := ev3 ++
            [.notified (notifyFor "Pro Max 16 PoE Switch" env.now r1.available r1.error)]
          match env.fault 4 with
          | some m => (ev4, some m)
          | none =>
            let ev5 := ev4 ++
              [.notified (notifyFor "U7 Pro Max WiFi AP" env.now r2.available r2.error)]
            match env.fault 5 with
            | some m => (ev5, some m)
            | none =>
              (ev5 ++
                [.notified (notifyFor "Cloud Gateway Fiber" env.now r3.available r3.error)],
               none)

/-- The notification sent by `main`'s top-level `except Exception` handler. -/
def fatalNotif (m : String) : Notification :=
  ⟨"Fatal error in stock check script: " ++ m, -1, "Fatal Error - Unifi Stock Check"⟩

/-- Embedding of `main()` of `src/unifi.py`: on a setup failure the top-level handler
sends one fatal notification (no driver exists, so no `quit`); otherwise the
inner block runs, `finally` always executes `driver.quit()`, and an
exception escaping the inner block is caught by the top-level handler which
sends the fatal notification.  The second component is an exception
propagating out of `main` itself: always `none`, because the handler
catches every `Exception`. -/
def mainRun (env : Env) : List Ev × Option String :=
  match env.launchFail with
  | some m => ([.notified (fatalNotif m)], none)
  | none =>
    let (evs, r) := runInner env
    let evs := evs ++ [.quit]
    match r with
    | none => (evs, none)
    | some m => (evs ++ [.notified (fatalNotif m)], none)

/-- Exit status of the process: `main()` is called bare under
`if __name__ == "__main__"`, so the process exits non-zero exactly when an
exception propagates out of `main`. -/
def processExitCode (env : Env) : Nat :=
  match (mainRun env).2 with
  | none => 0
  | some _ => 1

/-- Modelled from the spec: the status-log writer of the file-logging
variant, which is absent from `src/unifi.py` (no status-log code exists
there).  Per the spec it "appends a timestamped boolean status line to a
configured file path"; the file is modelled as its list of lines and one
run appends one line. -/
def appendStatusLine (file : List String) (timestamp : String)
    (available : Bool) : List String :=
  file ++ [timestamp ++ " " ++ (if available then "True" else "False")]

/-- A `find_elements` outcome contributes no sold-out hit: either the
selector is absent (`NoSuchElementException`, skipped by the loop) or it
returns elements none of whose texts contain `'Sold Out'`. -/
def findBenign : FindResult → Bool
  | .found es => es.all (fun x => !(strIn "Sold Out" x.text))
  | .noSuchElement => true
  | .raise _ => false

/-- A per-target failure of the kinds §7 of the spec lists: a page-load
timeout (during `driver.get` or the body wait), a navigation failure
(`driver.get` raises), or a DOM-query failure (a `find_elements` call
raises something other than the skipped `NoSuchElementException`). -/
def pageFails (page : Page) : Prop :=
  page.nav = .timeout ∨
  (∃ f, page.nav = .raise f) ∨
  (page.nav = .ok ∧ page.waitBody 20 = .timeout) ∨
  (page.nav = .ok ∧ ∃ f, page.waitBody 20 = .raise f) ∨
  (page.nav = .ok ∧ page.waitBody 20 = .ok ∧
    ∃ f, (scanSelectors page sold_out_selectors).res = .error f)

/-- Whether an event is a `send_notification` call. -/
def isNotified : Ev → Bool
  | .notified _ => true
  | _ => false

/-! ### Concrete fixtures used by the witness theorems -/

/-- Fixture: an element whose visible text is exactly the marker. -/
def soldOutElem : Element := ⟨"Sold Out"⟩

/-- Fixture: a page where the first configured selector matches a sold-out
element and the other selectors are absent. -/
def pageSoldOut : Page :=
  ⟨.ok, fun _ => .ok,
   fun s => if s = ".sc-190ba8g-4" then .found [soldOutElem] else .noSuchElement,
   .ok⟩

/-- Fixture: a page where every selector matches only a non-marker element
and the screenshot succeeds. -/
def pageInStock : Page :=
  ⟨.ok, fun _ => .ok, fun _ => .found [⟨"Add to Cart"⟩], .ok⟩

/-- Fixture: a page whose navigation raises `TimeoutException`. -/
def pageTimeout : Page :=
  ⟨.timeout, fun _ => .ok, fun _ => .noSuchElement, .ok⟩

/-- Fixture: a page with no marker whose screenshot file write fails
(selenium swallows the `OSError` and returns `False`). -/
def pageWriteFail : Page :=
  ⟨.ok, fun _ => .ok, fun _ => .noSuchElement, .writeFailed⟩

/-- Fixture: a run whose three targets are all possibly in stock. -/
def envOk : Env :=
  ⟨none, fun _ => pageInStock, fun _ => none,
   "https://store/switch", "https://store/wifi", "https://store/gateway",
   "/app", "2026-10-12 00:00:00"⟩

/-- Fixture: a run where the switch target's page load times out and the
other two targets are fine. -/
def envSwitchTimeout : Env :=
  ⟨none,
   fun u => if u = "https://store/switch" then pageTimeout else pageInStock,
   fun _ => none,
   "https://store/switch", "https://store/wifi", "https://store/gateway",
   "/app", "2026-10-12 00:00:00"⟩

/-- Fixture: a run where the browser fails to launch. -/
def envLaunchFail : Env :=
  ⟨some "chrome failed to start", fun _ => pageInStock, fun _ => none,
   "https://store/switch", "https://store/wifi", "https://store/gateway",
   "/app", "2026-10-12 00:00:00"⟩

/-- Fixture: a run where an unexpected exception is injected into the
second per-target check step. -/
def envFaulty : Env :=
  ⟨none, fun _ => pageInStock,
   fun k => if k = 1 then some "unexpected failure" else none,
   "https://store/switch", "https://store/wifi", "https://store/gateway",
   "/app", "2026-10-12 00:00:00"⟩

/-! ### Helper lemmas about the selector scan -/

theorem scanElems_no_match (es : List Element)
    (h : ∀ x ∈ es, strIn "Sold Out" x.text = false) :
    scanElems es = (false, es.map Element.text) := by
  induction es with
  | nil => rfl
  | cons e rest ih =>
    have he := h e (List.mem_cons_self e rest)
    simp [scanElems, he, ih (fun x hx => h x (List.mem_cons_of_mem e hx))]

theorem scanElems_first_match (pre post : List Element) (e : Element)
    (hpre : ∀ x ∈ pre, strIn "Sold Out" x.text = false)
    (he : strIn "Sold Out" e.text = true) :
    scanElems (pre ++ e :: post) = (true, pre.map Element.text ++ [e.text]) := by
  induction pre with
  | nil => simp [scanElems, he]
  | cons a rest ih =>
    have ha := hpre a (List.mem_cons_self a rest)
    simp [scanElems, ha, ih (fun x hx => hpre x (List.mem_cons_of_mem a hx))]

theorem scanSelectors_benign (page : Page) (sels : List String)
    (h : ∀ s ∈ sels, findBenign (page.find s) = true) :
    (scanSelectors page sels).res = .ok false ∧
    (scanSelectors page sels).queried = sels ∧
    ∀ t ∈ (scanSelectors page sels).examined, strIn "Sold Out" t = false := by
  induction sels with
  | nil => exact ⟨rfl, rfl, by simp [scanSelectors]⟩
  | cons sel rest ih =>
    have hsel := h sel (List.mem_cons_self sel rest)
    obtain ⟨ihr, ihq, ihe⟩ := ih (fun s hs => h s (List.mem_cons_of_mem sel hs))
    match hfind : page.find sel with
    | .raise m => rw [hfind] at hsel; simp [findBenign] at hsel
    | .noSuchElement =>
      refine ⟨?_, ?_, ?_⟩ <;>
        simp_all [scanSelectors, hfind]
    | .found es =>
      rw [hfind] at hsel
      have hes : ∀ x ∈ es, strIn "Sold Out" x.text = false := by
        intro x hx
        have := (List.all_eq_true.mp hsel) x hx
        simpa using this
      have hscan := scanElems_no_match es hes
      refine ⟨?_, ?_, ?_⟩
      · simp [scanSelectors, hfind, hscan, ihr]
      · simp [scanSelectors, hfind, hscan, ihq]
      · intro t ht
        simp only [scanSelectors, hfind, hscan] at ht
        rcases List.mem_append.mp ht with hmem | hmem
        · obtain ⟨x, hx, rfl⟩ := List.mem_map.mp hmem
          exact hes x hx
        · exact ihe t hmem

theorem scanSelectors_stop (page : Page) (s₁ : List String) (sel : String)
    (s₂ : List String)
    (hben : ∀ s ∈ s₁, findBenign (page.find s) = true)
    (pre post : List Element) (e : Element)
    (hfind : page.find sel = .found (pre ++ e :: post))
    (hpre : ∀ x ∈ pre, strIn "Sold Out" x.text = false)
    (he : strIn "Sold Out" e.text = true) :
    (scanSelectors page (s₁ ++ sel :: s₂)).res = .ok true ∧
    (scanSelectors page (s₁ ++ sel :: s₂)).queried = s₁ ++ [sel] ∧
    ∃ ts, (scanSelectors page (s₁ ++ sel :: s₂)).examined =
        ts ++ (pre.map Element.text ++ [e.text]) ∧
      ∀ t ∈ ts, strIn "Sold Out" t = false := by
  induction s₁ with
  | nil =>
    have hscan := scanElems_first_match pre post e hpre he
    refine ⟨?_, ?_, [], ?_, by simp⟩ <;>
      simp [scanSelectors, hfind, hscan]
  | cons a rest ih =>
    have ha := hben a (List.mem_cons_self a rest)
    obtain ⟨ihr, ihq, ts, ihe, ihts⟩ :=
      ih (fun s hs => hben s (List.mem_cons_of_mem a hs))
    match hfa : page.find a with
    | .raise m => rw [hfa] at ha; simp [findBenign] at ha
    | .noSuchElement =>
      refine ⟨?_, ?_, ts, ?_, ihts⟩ <;>
        simp [scanSelectors, hfa, ihr, ihq, ihe]
    | .found es =>
      rw [hfa] at ha
      have hes : ∀ x ∈ es, strIn "Sold Out" x.text = false := by
        intro x hx
        have := (List.all_eq_true.mp ha) x hx
        simpa using this
      have hscan := scanElems_no_match es hes
      refine ⟨?_, ?_, es.map Element.text ++ ts, ?_, ?_⟩
      · simp [scanSelectors, hfa, hscan, ihr]
      · simp [scanSelectors, hfa, hscan, ihq]
      · simp [scanSelectors, hfa, hscan, ihe]
      · intro t ht
        rcases List.mem_append.mp ht with hmem | hmem
        · obtain ⟨x, hx, rfl⟩ := List.mem_map.mp hmem
          exact hes x hx
        · exact ihts t hmem

/-! ### Helper lemmas about `check_product_availability` and `main` -/

theorem append_ne_empty (a b : String) (h : 0 < a.length) : a ++ b ≠ "" := by
  intro hc
  have hlen := congrArg String.length hc
  rw [String.length_append] at hlen
  simp at hlen
  omega

/-- Enumeration of the `error` component: `None`, the timeout message, or a
generic-handler message. -/
theorem check_error_cases (baseDir : String) (page : Page) (n : String) :
    (check_product_availability baseDir page n).error = none ∨
    (check_product_availability baseDir page n).error = some (timeoutMsg n) ∨
    ∃ x, (check_product_availability baseDir page n).error = some (errMsg n x) := by
  simp only [check_product_availability]
  rcases hres : (scanSelectors page sold_out_selectors).res with m | b
  · repeat' split
    all_goals simp
  · rcases b
    · repeat' split
      all_goals simp
    · repeat' split
      all_goals simp

/-- Every error message the function can return is non-empty, so Python's
truthiness test `if switch_error:` in `main` is equivalent to an
is-`None` test on the results this function produces. -/
theorem check_error_ne_empty (baseDir : String) (page : Page)
    (product_name m : String)
    (h : (check_product_availability baseDir page product_name).error = some m) :
    m ≠ "" := by
  have htim : timeoutMsg product_name ≠ "" :=
    append_ne_empty _ _ (by decide)
  have herr : ∀ x, errMsg product_name x ≠ "" := fun x =>
    append_ne_empty _ _ (by
      rw [String.length_append, String.length_append]
      have : 0 < ("Error checking " : String).length := by decide
      omega)
  rcases check_error_cases baseDir page product_name with hc | hc | ⟨x, hc⟩ <;>
    rw [hc] at h
  · exact absurd h (by simp)
  · obtain rfl := Option.some.inj h.symm
    exact htim
  · obtain rfl := Option.some.inj h.symm
    exact herr x

/-- Trace of the inner `try` block when no unexpected exception is injected:
three checks, then one notification per target, and no escaping exception.
This is the reference behaviour, since every step of the source catches its
own exceptions. -/
theorem runInner_no_faults (env : Env) (h : ∀ k, env.fault k = none) :
    runInner env =
      ([.checked "Pro Max 16 PoE Switch",
        .checked "U7 Pro Max WiFi AP",
        .checked "Cloud Gateway Fiber",
        .notified (notifyFor "Pro Max 16 PoE Switch" env.now
          (check_product_availability env.baseDir (env.page env.urlSwitch)
            "Pro Max 16 PoE Switch").available
          (check_product_availability env.baseDir (env.page env.urlSwitch)
            "Pro Max 16 PoE Switch").error),
        .notified (notifyFor "U7 Pro Max WiFi AP" env.now
          (check_product_availability env.baseDir (env.page env.urlWifi)
            "U7 Pro Max WiFi AP").available
          (check_product_availability env.baseDir (env.page env.urlWifi)
            "U7 Pro Max WiFi AP").error),
        .notified (notifyFor "Cloud Gateway Fiber" env.now
          (check_product_availability env.baseDir (env.page env.urlGateway)
            "Cloud Gateway Fiber").available
          (check_product_availability env.baseDir (env.page env.urlGateway)
            "Cloud Gateway Fiber").error)],
       none) := by
  simp [runInner, h 0, h 1, h 2, h 3, h 4, h 5]

/-- Any of the listed per-target failures yields an error result
`(False, some message)`. -/
theorem check_fails (baseDir : String) (page : Page) (n : String)
    (hfail : pageFails page) :
    ∃ m, (check_product_availability baseDir page n).error = some m ∧
      (check_product_availability baseDir page n).available = false := by
  rcases hfail with h | ⟨f, h⟩ | ⟨h1, h2⟩ | ⟨h1, f, h2⟩ | ⟨h1, h2, f, h3⟩
  · exact ⟨timeoutMsg n, by simp [check_product_availability, h], by
      simp [check_product_availability, h]⟩
  · exact ⟨errMsg n f, by simp [check_product_availability, h], by
      simp [check_product_availability, h]⟩
  · exact ⟨timeoutMsg n, by simp [check_product_availability, h1, h2], by
      simp [check_product_availability, h1, h2]⟩
  · exact ⟨errMsg n f, by simp [check_product_availability, h1, h2], by
      simp [check_product_availability, h1, h2]⟩
  · exact ⟨errMsg n f, by simp [check_product_availability, h1, h2, h3], by
      simp [check_product_availability, h1, h2, h3]⟩

/-! ### Claim theorems -/

/-- C1: on a rendered page (navigation and the body wait succeed) where a
configured selector matches an element whose visible text contains the
exact substring "Sold Out" — the selectors before it being benign (absent
or matching only non-marker elements) and the elements before it in the
matching selector's list non-marker — `check_product_availability` returns
the SoldOut outcome `(False, None)`, takes no screenshot, and
short-circuits: the selectors queried stop at the matching one (nothing in
`s₂` is evaluated) and the matching element's text is the last one
examined, everything examined before it being marker-free. -/
theorem C1_soldOut_shortcircuits_no_screenshot
    (baseDir product_name : String) (page : Page)
    (hnav : page.nav = .ok) (hwait : page.waitBody 20 = .ok)
    (s₁ s₂ : List String) (sel : String)
    (hdecomp : sold_out_selectors = s₁ ++ sel :: s₂)
    (hben : ∀ s ∈ s₁, findBenign (page.find s) = true)
    (pre post : List Element) (e : Element)
    (hfind : page.find sel = .found (pre ++ e :: post))
    (hpre : ∀ x ∈ pre, strIn "Sold Out" x.text = false)
    (he : strIn "Sold Out" e.text = true) :
    (check_product_availability baseDir page product_name).available = false ∧
    (check_product_availability baseDir page product_name).error = none ∧
    (check_product_availability baseDir page product_name).screenshot_calls = [] ∧
    (check_product_availability baseDir page product_name).queried = s₁ ++ [sel] ∧
    (check_product_availability baseDir page product_name).examined.getLast?
      = some e.text ∧
    ∀ t ∈ (check_product_availability baseDir page product_name).examined.dropLast,
      strIn "Sold Out" t = false := by
  obtain ⟨hres, hq, ts, hex, hts⟩ :=
    scanSelectors_stop page s₁ sel s₂ hben pre post e hfind hpre he
  rw [← hdecomp] at hres hq hex
  simp only [check_product_availability, hnav, hwait, hres]
  refine ⟨by trivial, by trivial, by trivial, hq, ?_, ?_⟩
  · rw [hex, ← List.append_assoc, List.getLast?_concat]
  · intro t ht
    rw [hex, ← List.append_assoc, List.dropLast_concat] at ht
    rcases List.mem_append.mp ht with hmem | hmem
    · exact hts t hmem
    · obtain ⟨x, hx, rfl⟩ := List.mem_map.mp hmem
      exact hpre x hx

/-- Witness for C1 at the first selector of `pageSoldOut`. -/
theorem C1_witness :
    pageSoldOut.nav = .ok ∧ pageSoldOut.waitBody 20 = .ok ∧
    sold_out_selectors =
      [] ++ ".sc-190ba8g-4" :: ["button[label=\"Sold Out\"]", "div.sc-1x3sjmh-0"] ∧
    (∀ s ∈ ([] : List String), findBenign (pageSoldOut.find s) = true) ∧
    pageSoldOut.find ".sc-190ba8g-4" = .found ([] ++ soldOutElem :: []) ∧
    (∀ x ∈ ([] : List Element), strIn "Sold Out" x.text = false) ∧
    strIn "Sold Out" soldOutElem.text = true ∧
    ((check_product_availability "/app" pageSoldOut "Pro Max 16 PoE Switch").available
        = false ∧
     (check_product_availability "/app" pageSoldOut "Pro Max 16 PoE Switch").error
        = none ∧
     (check_product_availability "/app" pageSoldOut "Pro Max 16 PoE Switch").screenshot_calls
        = [] ∧
     (check_product_availability "/app" pageSoldOut "Pro Max 16 PoE Switch").queried
        = [] ++ [".sc-190ba8g-4"] ∧
     (check_product_availability "/app" pageSoldOut "Pro Max 16 PoE Switch").examined.getLast?
        = some soldOutElem.text ∧
     ∀ t ∈ (check_product_availability "/app" pageSoldOut
         "Pro Max 16 PoE Switch").examined.dropLast,
       strIn "Sold Out" t = false) :=
  ⟨rfl, rfl, rfl, by simp, by decide, by simp, by decide,
   C1_soldOut_shortcircuits_no_screenshot "/app" "Pro Max 16 PoE Switch"
     pageSoldOut rfl rfl [] ["button[label=\"Sold Out\"]", "div.sc-1x3sjmh-0"]
     ".sc-190ba8g-4" rfl (by simp) [] [] soldOutElem (by decide) (by simp)
     (by decide)⟩

/-- C2: on a rendered page (navigation and body wait succeed, no
`find_elements` call raises past the loop, the screenshot call does not
raise) where no selector-matched element's text contains "Sold Out",
`check_product_availability` returns the InStock outcome `(True, None)` and
makes exactly one `save_screenshot` call, whose path joins the working
directory with the display name with every space replaced by an underscore
plus the `_screenshot.png` suffix. -/
theorem C2_inStock_takes_one_screenshot
    (baseDir product_name : String) (page : Page)
    (hnav : page.nav = .ok) (hwait : page.waitBody 20 = .ok)
    (hben : ∀ s ∈ sold_out_selectors, findBenign (page.find s) = true)
    (hshot : page.screenshot.raises = false) :
    (check_product_availability baseDir page product_name).available = true ∧
    (check_product_availability baseDir page product_name).error = none ∧
    (check_product_availability baseDir page product_name).screenshot_calls =
      [pathJoin baseDir (product_name.replace " " "_" ++ "_screenshot.png")] := by
  obtain ⟨hres, hq, hex⟩ := scanSelectors_benign page sold_out_selectors hben
  simp only [check_product_availability, hnav, hwait, hres]
  rcases hs : page.screenshot with _ | _ | m
  · simp
  · simp
  · rw [hs] at hshot
    simp [ScreenshotResult.raises] at hshot

/-- Witness for C2 on `pageInStock` with the wifi target's name. -/
theorem C2_witness :
    pageInStock.nav = .ok ∧ pageInStock.waitBody 20 = .ok ∧
    (∀ s ∈ sold_out_selectors, findBenign (pageInStock.find s) = true) ∧
    pageInStock.screenshot.raises = false ∧
    ((check_product_availability "/app" pageInStock "U7 Pro Max WiFi AP").available
        = true ∧
     (check_product_availability "/app" pageInStock "U7 Pro Max WiFi AP").error
        = none ∧
     (check_product_availability "/app" pageInStock "U7 Pro Max WiFi AP").screenshot_calls
        = [pathJoin "/app" ("U7 Pro Max WiFi AP".replace " " "_" ++ "_screenshot.png")]) :=
  ⟨rfl, rfl, by decide, rfl,
   C2_inStock_takes_one_screenshot "/app" "U7 Pro Max WiFi AP" pageInStock
     rfl rfl (by decide) rfl⟩

/-- C3: if navigation or the 20-second wait for the `body` element raises
`TimeoutException`, `check_product_availability` returns
`(False, "Timeout while loading the page for <name>")` — an Error result
with exactly that message — and makes no `save_screenshot` call (and
queries no selector). -/
theorem C3_timeout_message_no_screenshot
    (baseDir product_name : String) (page : Page)
    (h : page.nav = .timeout ∨ (page.nav = .ok ∧ page.waitBody 20 = .timeout)) :
    check_product_availability baseDir page product_name =
      ⟨false, some ("Timeout while loading the page for " ++ product_name),
       [], [], []⟩ := by
  rcases h with h | ⟨h1, h2⟩
  · simp [check_product_availability, h, timeoutMsg]
  · simp [check_product_availability, h1, h2, timeoutMsg]

/-- Witness for C3 on `pageTimeout`. -/
theorem C3_witness :
    (pageTimeout.nav = .timeout ∨
      (pageTimeout.nav = .ok ∧ pageTimeout.waitBody 20 = .timeout)) ∧
    check_product_availability "/app" pageTimeout "Cloud Gateway Fiber" =
      ⟨false, some ("Timeout while loading the page for " ++ "Cloud Gateway Fiber"),
       [], [], []⟩ :=
  ⟨Or.inl rfl,
   C3_timeout_message_no_screenshot "/app" "Cloud Gateway Fiber" pageTimeout
     (Or.inl rfl)⟩

/-- C4: on the possibly-in-stock branch (rendered page, no marker found), a
failed screenshot file write (selenium's `save_screenshot` swallows the
`OSError` and returns `False`) is not escalated: the function still
returns the InStock outcome `(True, None)`, not an Error result. -/
theorem C4_screenshot_write_failure_not_escalated
    (baseDir product_name : String) (page : Page)
    (hnav : page.nav = .ok) (hwait : page.waitBody 20 = .ok)
    (hben : ∀ s ∈ sold_out_selectors, findBenign (page.find s) = true)
    (hshot : page.screenshot = .writeFailed) :
    (check_product_availability baseDir page product_name).available = true ∧
    (check_product_availability baseDir page product_name).error = none := by
  obtain ⟨hres, hq, hex⟩ := scanSelectors_benign page sold_out_selectors hben
  simp [check_product_availability, hnav, hwait, hres, hshot]

/-- Witness for C4 on `pageWriteFail`. -/
theorem C4_witness :
    pageWriteFail.nav = .ok ∧ pageWriteFail.waitBody 20 = .ok ∧
    (∀ s ∈ sold_out_selectors, findBenign (pageWriteFail.find s) = true) ∧
    pageWriteFail.screenshot = .writeFailed ∧
    ((check_product_availability "/app" pageWriteFail "Pro Max 16 PoE Switch").available
        = true ∧
     (check_product_availability "/app" pageWriteFail "Pro Max 16 PoE Switch").error
        = none) :=
  ⟨rfl, rfl, by decide, rfl,
   C4_screenshot_write_failure_not_escalated "/app" "Pro Max 16 PoE Switch"
     pageWriteFail rfl rfl (by decide) rfl⟩

/-- C10: `check_product_availability` is total (every outcome of every
webdriver call, raises included, is mapped to a result — the embedding has
no escaping exception) and its result is exactly one of the three pairs
`(True, None)`, `(False, None)` or `(False, some message)`; in particular
`available = True` never carries an error message, so SoldOut and Error
share the `False` flag and differ only in the message. -/
theorem C10_result_is_one_of_three_shapes
    (baseDir : String) (page : Page) (product_name : String) :
    ((check_product_availability baseDir page product_name).available = true ∧
      (check_product_availability baseDir page product_name).error = none) ∨
    ((check_product_availability baseDir page product_name).available = false ∧
      (check_product_availability baseDir page product_name).error = none) ∨
    ((check_product_availability baseDir page product_name).available = false ∧
      ∃ m, (check_product_availability baseDir page product_name).error = some m) := by
  simp only [check_product_availability]
  rcases hres : (scanSelectors page sold_out_selectors).res with m | b
  · repeat' split
    all_goals simp
  · rcases b
    · repeat' split
      all_goals simp
    · repeat' split
      all_goals simp

/-- C5: a per-target failure (page timeout, navigation failure, DOM-query
failure) on the first target is caught inside `check_product_availability`
and becomes an `Error(message)` result; `main` then sends the error-titled
notification "Error - Unifi Stock Check" for that target instead of a
stock-status one, and still checks and notifies the two remaining targets
before quitting the driver; nothing escapes `main`'s inner block. -/
theorem C5_target_error_notified_others_continue
    (env : Env) (hL : env.launchFail = none) (hF : ∀ k, env.fault k = none)
    (hfail : pageFails (env.page env.urlSwitch)) :
    ∃ m,
      (check_product_availability env.baseDir (env.page env.urlSwitch)
        "Pro Max 16 PoE Switch").error = some m ∧
      (mainRun env).1 =
        [.checked "Pro Max 16 PoE Switch",
         .checked "U7 Pro Max WiFi AP",
         .checked "Cloud Gateway Fiber",
         .notified ⟨"Error checking Pro Max 16 PoE Switch: " ++ m, -1,
                    "Error - Unifi Stock Check"⟩,
         .notified (notifyFor "U7 Pro Max WiFi AP" env.now
           (check_product_availability env.baseDir (env.page env.urlWifi)
             "U7 Pro Max WiFi AP").available
           (check_product_availability env.baseDir (env.page env.urlWifi)
             "U7 Pro Max WiFi AP").error),
         .notified (notifyFor "Cloud Gateway Fiber" env.now
           (check_product_availability env.baseDir (env.page env.urlGateway)
             "Cloud Gateway Fiber").available
           (check_product_availability env.baseDir (env.page env.urlGateway)
             "Cloud Gateway Fiber").error),
         .quit] ∧
      (mainRun env).2 = none := by
  obtain ⟨m, herr, _⟩ :=
    check_fails env.baseDir (env.page env.urlSwitch) "Pro Max 16 PoE Switch" hfail
  have hm := check_error_ne_empty env.baseDir (env.page env.urlSwitch)
    "Pro Max 16 PoE Switch" m herr
  have hri := runInner_no_faults env hF
  refine ⟨m, herr, ?_, ?_⟩
  · simp only [mainRun, hL, hri]
    simp [notifyFor, herr, hm]
  · simp only [mainRun, hL, hri]

/-- Witness for C5 on `envSwitchTimeout`, whose switch page times out. -/
theorem C5_witness :
    envSwitchTimeout.launchFail = none ∧
    (∀ k, envSwitchTimeout.fault k = none) ∧
    pageFails (envSwitchTimeout.page envSwitchTimeout.urlSwitch) ∧
    ∃ m,
      (check_product_availability envSwitchTimeout.baseDir
        (envSwitchTimeout.page envSwitchTimeout.urlSwitch)
        "Pro Max 16 PoE Switch").error = some m ∧
      (mainRun envSwitchTimeout).1 =
        [.checked "Pro Max 16 PoE Switch",
         .checked "U7 Pro Max WiFi AP",
         .checked "Cloud Gateway Fiber",
         .notified ⟨"Error checking Pro Max 16 PoE Switch: " ++ m, -1,
                    "Error - Unifi Stock Check"⟩,
         .notified (notifyFor "U7 Pro Max WiFi AP" envSwitchTimeout.now
           (check_product_availability envSwitchTimeout.baseDir
             (envSwitchTimeout.page envSwitchTimeout.urlWifi)
             "U7 Pro Max WiFi AP").available
           (check_product_availability envSwitchTimeout.baseDir
             (envSwitchTimeout.page envSwitchTimeout.urlWifi)
             "U7 Pro Max WiFi AP").error),
         .notified (notifyFor "Cloud Gateway Fiber" envSwitchTimeout.now
           (check_product_availability envSwitchTimeout.baseDir
             (envSwitchTimeout.page envSwitchTimeout.urlGateway)
             "Cloud Gateway Fiber").available
           (check_product_availability envSwitchTimeout.baseDir
             (envSwitchTimeout.page envSwitchTimeout.urlGateway)
             "Cloud Gateway Fiber").error),
         .quit] ∧
      (mainRun envSwitchTimeout).2 = none :=
  ⟨rfl, fun _ => rfl, Or.inl (by decide),
   C5_target_error_notified_others_continue envSwitchTimeout rfl
     (fun _ => rfl) (Or.inl (by decide))⟩

/-- C6: in a run where the browser launches (and, as in the source, no step
of the inner block raises), exactly one `send_notification` call is made
for each of the three configured targets, whatever each result variant is:
the full event trace is three checks, three notifications — one per target,
in order — and the `quit`; the filtered notification count is exactly 3. -/
theorem C6_one_notification_per_target
    (env : Env) (hL : env.launchFail = none) (hF : ∀ k, env.fault k = none) :
    (mainRun env).1 =
      [.checked "Pro Max 16 PoE Switch",
       .checked "U7 Pro Max WiFi AP",
       .checked "Cloud Gateway Fiber",
       .notified (notifyFor "Pro Max 16 PoE Switch" env.now
         (check_product_availability env.baseDir (env.page env.urlSwitch)
           "Pro Max 16 PoE Switch").available
         (check_product_availability env.baseDir (env.page env.urlSwitch)
           "Pro Max 16 PoE Switch").error),
       .notified (notifyFor "U7 Pro Max WiFi AP" env.now
         (check_product_availability env.baseDir (env.page env.urlWifi)
           "U7 Pro Max WiFi AP").available
         (check_product_availability env.baseDir (env.page env.urlWifi)
           "U7 Pro Max WiFi AP").error),
       .notified (notifyFor "Cloud Gateway Fiber" env.now
         (check_product_availability env.baseDir (env.page env.urlGateway)
           "Cloud Gateway Fiber").available
         (check_product_availability env.baseDir (env.page env.urlGateway)
           "Cloud Gateway Fiber").error),
       .quit] ∧
    ((mainRun env).1.filter isNotified).length = 3 := by
  have hri := runInner_no_faults env hF
  constructor
  · simp only [mainRun, hL, hri]
    rfl
  · simp only [mainRun, hL, hri]
    simp [isNotified]

/-- Witness for C6 on `envOk`. -/
theorem C6_witness :
    envOk.launchFail = none ∧ (∀ k, envOk.fault k = none) ∧
    ((mainRun envOk).1 =
      [.checked "Pro Max 16 PoE Switch",
       .checked "U7 Pro Max WiFi AP",
       .checked "Cloud Gateway Fiber",
       .notified (notifyFor "Pro Max 16 PoE Switch" envOk.now
         (check_product_availability envOk.baseDir (envOk.page envOk.urlSwitch)
           "Pro Max 16 PoE Switch").available
         (check_product_availability envOk.baseDir (envOk.page envOk.urlSwitch)
           "Pro Max 16 PoE Switch").error),
       .notified (notifyFor "U7 Pro Max WiFi AP" envOk.now
         (check_product_availability envOk.baseDir (envOk.page envOk.urlWifi)
           "U7 Pro Max WiFi AP").available
         (check_product_availability envOk.baseDir (envOk.page envOk.urlWifi)
           "U7 Pro Max WiFi AP").error),
       .notified (notifyFor "Cloud Gateway Fiber" envOk.now
         (check_product_availability envOk.baseDir (envOk.page envOk.urlGateway)
           "Cloud Gateway Fiber").available
         (check_product_availability envOk.baseDir (envOk.page envOk.urlGateway)
           "Cloud Gateway Fiber").error),
       .quit] ∧
    ((mainRun envOk).1.filter isNotified).length = 3) :=
  ⟨rfl, fun _ => rfl,
   C6_one_notification_per_target envOk rfl (fun _ => rfl)⟩

/-- C7: whenever the browser instance is created (`launchFail = none`),
`driver.quit()` is executed before `main` finishes on every path — the
`finally` block runs whether or not a per-target check or notification step
raises. -/
theorem C7_quit_on_every_path (env : Env) (hL : env.launchFail = none) :
    Ev.quit ∈ (mainRun env).1 := by
  simp only [mainRun, hL]
  rcases hri : runInner env with ⟨evs, r⟩
  rcases r with _ | m <;> simp

/-- Witness for C7 on `envFaulty`, where the second check step raises. -/
theorem C7_witness :
    envFaulty.launchFail = none ∧ Ev.quit ∈ (mainRun envFaulty).1 :=
  ⟨rfl, C7_quit_on_every_path envFaulty rfl⟩

/-- C8 counterexample: on a browser-launch failure `main` does attempt the
single best-effort fatal notification, but its top-level handler swallows
the exception and `main` returns normally, so the process exits with code
0 — refuting the claim's "the process then exits non-zero". -/
theorem C8_counterexample :
    (mainRun envLaunchFail).1 =
      [.notified ⟨"Fatal error in stock check script: chrome failed to start",
                  -1, "Fatal Error - Unifi Stock Check"⟩] ∧
    (mainRun envLaunchFail).2 = none ∧
    processExitCode envLaunchFail = 0 := by
  refine ⟨?_, rfl, rfl⟩
  decide

/-- C8 (amended): when a setup/fatal error (e.g. a browser-launch failure)
reaches the top-level run handler, the run attempts exactly one best-effort
failure notification describing the error, and the handler swallows the
exception, so `main` returns normally and the process exits with code 0
(not non-zero). -/
theorem C8_amended_one_fatal_notification_exit_zero
    (env : Env) (m : String) (hL : env.launchFail = some m) :
    (mainRun env).1 = [.notified (fatalNotif m)] ∧
    processExitCode env = 0 := by
  constructor
  · simp [mainRun, hL]
  · simp [processExitCode, mainRun, hL]

/-- Witness for the amended C8 on `envLaunchFail`. -/
theorem C8_witness :
    envLaunchFail.launchFail = some "chrome failed to start" ∧
    ((mainRun envLaunchFail).1 =
      [.notified (fatalNotif "chrome failed to start")] ∧
     processExitCode envLaunchFail = 0) :=
  ⟨rfl,
   C8_amended_one_fatal_notification_exit_zero envLaunchFail
     "chrome failed to start" rfl⟩

/-- C9 (status log, modelled from the spec since `src/unifi.py` has no
status-log code): each run appends exactly one timestamped boolean line to
the end of the file, preserving its contents — running the check twice on
the same configuration yields the original file plus two status lines, and
from an empty file, a file with two lines, not one. -/
theorem C9_status_log_appends (file : List String) (t₁ t₂ : String)
    (b₁ b₂ : Bool) :
    appendStatusLine (appendStatusLine file t₁ b₁) t₂ b₂ =
      file ++ [t₁ ++ " " ++ (if b₁ then "True" else "False"),
               t₂ ++ " " ++ (if b₂ then "True" else "False")] ∧
    (appendStatusLine (appendStatusLine [] t₁ b₁) t₂ b₂).length = 2 := by
  constructor
  · simp [appendStatusLine]
  · simp [appendStatusLine]

end Unifi
